import Mathlib

/-!
Verification of the tunnel-relay core of the Simple VPN client/server pair
(`simple_vpn_client.c`, `simple_vpn_server.c`).

The two C programs share a byte-identical relay engine (`xor_crypt` and
`vpn_event_loop` differ only in printed strings and the name of the peer
file descriptor), so one model serves both roles.  Bytes are modelled as
natural numbers (values below 256 on the wire); the TCP byte stream is
modelled as a list of chunks, each chunk being the data available to one
`read` call — `read(fd, buf, n)` returns at most `n` bytes from the head
chunk, an empty stream or empty chunk models a closed connection
(`read` returning 0), matching POSIX semantics the loop relies on.
-/

namespace SimpleVpn

abbrev Byte := Nat

/-- BUFFER_SIZE from both sources: the stack buffer is 2048 bytes. -/
def BUFFER_SIZE : Nat := 2048

/-- XOR_KEY from both sources (0x42). -/
def XOR_KEY : Byte := 0x42

/-- `xor_crypt(data, len, key)`: XORs every byte of the buffer with the key
(identical in client and server). -/
def xor_crypt (data : List Byte) (key : Byte) : List Byte :=
  data.map (fun b => b ^^^ key)

/-- `htons(nread)` stored into a 2-byte buffer and sent on the wire: the
length truncated to 16 bits, big-endian (network) byte order. -/
def toBE16 (n : Nat) : List Byte :=
  [n % 65536 / 256, n % 256]

/-- `ntohs` applied to two received wire bytes: big-endian reassembly. -/
def be16 (b0 b1 : Byte) : Nat := b0 * 256 + b1

/-- One `read(fd, buf, n)` call on the chunked stream: returns up to `n`
bytes from the head chunk (POSIX `read` returns as soon as any data is
available, not necessarily `n` bytes); an exhausted stream or an empty
chunk yields 0 bytes, which the loop code interprets as disconnect. -/
def readChunk (n : Nat) : List (List Byte) → List Byte × List (List Byte)
  | [] => ([], [])
  | c :: rest =>
    let t := c.take n
    let r := c.drop n
    (t, if r.isEmpty then rest else r :: rest)

/-- Result of the receive direction of `vpn_event_loop`: either the
`nread <= 0` branch was taken (peer treated as disconnected, with the
stream as left by the reads), or a payload was obtained together with the
remaining stream. -/
inductive RecvResult where
  | disconnected (rest : List (List Byte))
  | ok (pkt : List Byte) (rest : List (List Byte))
  deriving DecidableEq, Repr

/-- The receive direction of `vpn_event_loop` (lines 166-181 of the server,
170-185 of the client): one `read` of 2 bytes for the length prefix, bail
out on `nread <= 0`; `ntohs`; one `read` of `packet_len` bytes, bail out on
`nread <= 0`; otherwise the `nread` bytes read are the packet.  When the
prefix read returns a single byte the second byte of the C `uint16_t` is
indeterminate stack memory; the model reads it as 0 (no claim depends on
that case). -/
def recvFrame (s : List (List Byte)) : RecvResult :=
  let pr := readChunk 2 s
  if pr.1.length = 0 then .disconnected pr.2
  else
    let packet_len := be16 (pr.1.getD 0 0) (pr.1.getD 1 0)
    let pl := readChunk packet_len pr.2
    if pl.1.length = 0 then .disconnected pl.2
    else .ok pl.1 pl.2

/-- The Framer encode as performed by the send direction (client lines
151-165, server 147-161): 2-byte big-endian length prefix followed by the
payload bytes, the payload being what the two `write` calls emit. -/
def frameEncode (p : List Byte) : List Byte :=
  toBE16 p.length ++ p

/-- The full send direction transform applied to a packet read from the
TUN device: encrypt with `xor_crypt`, then frame with the length prefix
(the prefix uses `nread`, the plaintext length, which XOR preserves). -/
def encodeFrame (pkt : List Byte) (key : Byte) : List Byte :=
  toBE16 pkt.length ++ xor_crypt pkt key

/-- State of one `vpn_event_loop` session.  `tunIn` is the sequence of
results of successive TUN reads (`none` models `read` returning a
negative value, i.e. an interface read failure); `sockIn` is the chunked
transport stream; `tunWriteOk` and `sockWriteOk` are schedules of `write`
results (`false` models `write` returning a negative value; an exhausted
schedule means every remaining write succeeds); `sockOut` collects the
bytes written to the transport and `tunOut` the packets injected into the
TUN device. -/
structure LoopState where
  tunIn : List (Option (List Byte))
  sockIn : List (List Byte)
  tunWriteOk : List Bool
  sockWriteOk : List Bool
  sockOut : List Byte
  tunOut : List (List Byte)
  deriving DecidableEq, Repr

/-- Outcome of one `select` call: either `select` itself fails (negative
return) or it reports which of the two descriptors are readable. -/
inductive Readiness where
  | selectFail
  | ready (tun : Bool) (sock : Bool)
  deriving DecidableEq, Repr

/-- Pop the next write result from a schedule; an empty schedule means
the write succeeds. -/
def popWrite : List Bool → Bool × List Bool
  | [] => (true, [])
  | b :: r => (b, r)

/-- Pop the next TUN read result; an exhausted `tunIn` with `select`
still reporting readability is modelled as a read failure. -/
def popTun : List (Option (List Byte)) →
    Option (List Byte) × List (Option (List Byte))
  | [] => (none, [])
  | x :: r => (x, r)

/-- The TUN-readable branch of `vpn_event_loop` (client lines 142-166,
server 138-162): `read(tun_fd, buffer, BUFFER_SIZE)`, break on a negative
result (note: the check is `nread < 0`, so a 0-byte read proceeds);
`xor_crypt`; `write` the 2-byte `htons` prefix, break on failure; `write`
the encrypted payload, break on failure.  Returns the new state and
whether the loop continues (`false` = `break`). -/
def stepTun (st : LoopState) : LoopState × Bool :=
  let tr := popTun st.tunIn
  match tr.1 with
  | none => ({ st with tunIn := tr.2 }, false)
  | some p =>
    let pkt := p.take BUFFER_SIZE
    let enc := xor_crypt pkt XOR_KEY
    let w1 := popWrite st.sockWriteOk
    if w1.1 then
      let st1 := { st with tunIn := tr.2, sockWriteOk := w1.2,
                           sockOut := st.sockOut ++ toBE16 pkt.length }
      let w2 := popWrite st1.sockWriteOk
      if w2.1 then
        ({ st1 with sockWriteOk := w2.2, sockOut := st1.sockOut ++ enc }, true)
      else ({ st1 with sockWriteOk := w2.2 }, false)
    else ({ st with tunIn := tr.2, sockWriteOk := w1.2 }, false)

/-- The socket-readable branch of `vpn_event_loop` (client lines 170-199,
server 166-194): decode one frame with `recvFrame` (break on the
`nread <= 0` disconnect branches), `xor_crypt` the payload, `write` it to
the TUN device, break on write failure. -/
def stepSock (st : LoopState) : LoopState × Bool :=
  match recvFrame st.sockIn with
  | .disconnected rest => ({ st with sockIn := rest }, false)
  | .ok pkt rest =>
    let dec := xor_crypt pkt XOR_KEY
    let w := popWrite st.tunWriteOk
    if w.1 then
      ({ st with sockIn := rest, tunWriteOk := w.2,
                 tunOut := st.tunOut ++ [dec] }, true)
    else ({ st with sockIn := rest, tunWriteOk := w.2 }, false)

/-- One iteration of the `while (1)` body: break on `select` failure;
otherwise run the TUN branch if the TUN fd is ready (a `break` inside it
skips the rest of the body), then the socket branch if the socket fd is
ready. -/
def stepIter (r : Readiness) (st : LoopState) : LoopState × Bool :=
  match r with
  | .selectFail => (st, false)
  | .ready t s =>
    if t then
      let r1 := stepTun st
      if r1.2 then (if s then stepSock r1.1 else (r1.1, true))
      else (r1.1, false)
    else if s then stepSock st
    else (st, true)

/-- `vpn_event_loop` driven by a finite schedule of `select` outcomes.
Returns the final state and whether the loop exited via `break` within
the schedule (`false` means the schedule ran out with the loop still
running). -/
def runLoop : List Readiness → LoopState → LoopState × Bool
  | [], st => (st, false)
  | r :: rs, st =>
    let s1 := stepIter r st
    if s1.2 then runLoop rs s1.1 else (s1.1, true)

/-- What a process run reports: the exit status and whether a `close` was
executed on the interface (TUN) handle and on the transport (peer socket)
handle before exiting. -/
structure MainResult where
  exitCode : Nat
  closedTun : Bool
  closedTransport : Bool
  deriving DecidableEq, Repr

/-- `main` of `simple_vpn_server.c` (lines 198-250): create the TUN
device (exit 1 on failure), create/bind/listen the server socket (close
the TUN fd and exit 1 on failure), accept one client (close both and
exit 1 on failure), run `vpn_event_loop`, then close the client, server
and TUN descriptors and return 0.  `none` means the event loop is still
running after the given schedule. -/
def serverMain (tunOk sockOk acceptOk : Bool) (sched : List Readiness)
    (st : LoopState) : Option MainResult :=
  if !tunOk then some { exitCode := 1, closedTun := false, closedTransport := false }
  else if !sockOk then some { exitCode := 1, closedTun := true, closedTransport := false }
  else if !acceptOk then some { exitCode := 1, closedTun := true, closedTransport := false }
  else
    let r := runLoop sched st
    if r.2 then some { exitCode := 0, closedTun := true, closedTransport := true }
    else none

/-- `main` of `simple_vpn_client.c` (lines 208-253): usage check
(`argc != 2` exits 1), create the TUN device (exit 1 on failure), connect
to the server (close the TUN fd and exit 1 on failure), run
`vpn_event_loop`, then close the server and TUN descriptors and
return 0. -/
def clientMain (argcOk tunOk connectOk : Bool) (sched : List Readiness)
    (st : LoopState) : Option MainResult :=
  if !argcOk then some { exitCode := 1, closedTun := false, closedTransport := false }
  else if !tunOk then some { exitCode := 1, closedTun := false, closedTransport := false }
  else if !connectOk then some { exitCode := 1, closedTun := true, closedTransport := false }
  else
    let r := runLoop sched st
    if r.2 then some { exitCode := 0, closedTun := true, closedTransport := true }
    else none

/-- The frames the send direction produces from a prefix of the TUN read
results, in order: read errors contribute nothing (the loop stops there),
each packet contributes exactly its encrypted frame. -/
def framesOf (l : List (Option (List Byte))) : List Byte :=
  ((l.filterMap id).map (fun p => encodeFrame (p.take BUFFER_SIZE) XOR_KEY)).flatten

/-- A pure decode path: `RecvPath s ps sf` says that starting from stream
`s`, a sequence of successful `recvFrame` steps yields the packets `ps`
in order and leaves the stream at `sf`. -/
inductive RecvPath : List (List Byte) → List (List Byte) → List (List Byte) → Prop where
  | nil (s : List (List Byte)) : RecvPath s [] s
  | cons {s : List (List Byte)} {pkt : List Byte} {rest ps sf : List (List Byte)}
      (h : recvFrame s = RecvResult.ok pkt rest) (hp : RecvPath rest ps sf) :
      RecvPath s (pkt :: ps) sf

/-- The per-direction input/output relation established by a run of the
loop that has not stopped: some prefix of `k` TUN reads has been consumed
and their frames written to the transport in order, and some sequence of
frames `ps` has been decoded from the transport and their decrypts
written to the interface in order. -/
def OkReach (st f : LoopState) : Prop :=
  ∃ (k : Nat) (ps : List (List Byte)),
    f.tunIn = st.tunIn.drop k ∧
    f.sockOut = st.sockOut ++ framesOf (st.tunIn.take k) ∧
    RecvPath st.sockIn ps f.sockIn ∧
    f.tunOut = st.tunOut ++ ps.map (fun p => xor_crypt p XOR_KEY)

/-- Like `OkReach` but the final receive position may additionally have
consumed the bytes of one trailing frame whose decode reported a
disconnect (the reads that detect the peer close still consume data). -/
def Reach (st f : LoopState) : Prop :=
  ∃ (k : Nat) (ps s2 : List (List Byte)),
    f.tunIn = st.tunIn.drop k ∧
    f.sockOut = st.sockOut ++ framesOf (st.tunIn.take k) ∧
    RecvPath st.sockIn ps s2 ∧
    (f.sockIn = s2 ∨
      ∃ r2, recvFrame s2 = RecvResult.disconnected r2 ∧ f.sockIn = r2) ∧
    f.tunOut = st.tunOut ++ ps.map (fun p => xor_crypt p XOR_KEY)

end SimpleVpn

namespace SimpleVpn

theorem xor_involution (p : List Byte) (k : Byte) :
    xor_crypt (xor_crypt p k) k = p := by
  simp [xor_crypt, List.map_map, Function.comp_def, Nat.xor_cancel_right]

theorem xor_crypt_length (p : List Byte) (k : Byte) :
    (xor_crypt p k).length = p.length := by
  simp [xor_crypt]

/-- C4: the cipher is an involution: for every byte buffer `p` and every
key `k`, applying `xor_crypt` twice with the same key restores `p`
exactly, and each application preserves the buffer's length. -/
theorem c4_cipher_involution (p : List Byte) (k : Byte) :
    xor_crypt (xor_crypt p k) k = p ∧ (xor_crypt p k).length = p.length :=
  ⟨xor_involution p k, xor_crypt_length p k⟩

/-- C1 counterexample: the empty byte sequence (length 0, allowed by the
claim) does not round-trip: the receiver reports a disconnect instead of
yielding the empty packet. -/
theorem c1_empty_roundtrip_fails :
    recvFrame [frameEncode []] = RecvResult.disconnected [] ∧
      recvFrame [frameEncode []] ≠ RecvResult.ok [] [] := by
  decide

theorem recvFrame_one_chunk (b0 b1 : Byte) (p : List Byte)
    (h : be16 b0 b1 = p.length) (hp : p ≠ []) :
    recvFrame [b0 :: b1 :: p] = RecvResult.ok p [] := by
  have hne : p.isEmpty = false := by
    cases p with
    | nil => exact absurd rfl hp
    | cons a t => rfl
  have hlz : ¬ p.length = 0 := by
    cases p with
    | nil => exact absurd rfl hp
    | cons a t => simp
  simp only [recvFrame, readChunk, List.take_succ_cons, List.take_zero,
    List.drop_succ_cons, List.drop_zero, hne, Bool.false_eq_true, if_false,
    List.length_cons, List.length_nil, List.getD_cons_zero,
    List.getD_cons_succ, h]
  simp [List.take_length, List.drop_length, hlz]

/-- C1 (amended): for every byte sequence `p` with `1 ≤ len(p) ≤ 65535`,
decoding the frame produced by encoding `p` (2-byte big-endian length
prefix followed by the payload) yields exactly `p`; in particular a
65535-byte packet round-trips. -/
theorem c1_roundtrip (p : List Byte) (h1 : 1 ≤ p.length)
    (h2 : p.length ≤ 65535) :
    recvFrame [frameEncode p] = RecvResult.ok p [] := by
  have hp : p ≠ [] := by
    cases p with
    | nil => simp at h1
    | cons a t => simp
  have hshape : frameEncode p =
      (p.length % 65536 / 256) :: (p.length % 256) :: p := by
    simp [frameEncode, toBE16]
  rw [hshape]
  exact recvFrame_one_chunk _ _ p (by unfold be16; omega) hp

/-- C1 witness: a concrete nonempty packet round-trips. -/
theorem c1_roundtrip_witness :
    1 ≤ ([7, 8, 9] : List Byte).length ∧
      ([7, 8, 9] : List Byte).length ≤ 65535 ∧
      recvFrame [frameEncode [7, 8, 9]] = RecvResult.ok [7, 8, 9] [] :=
  ⟨by decide, by decide, c1_roundtrip [7, 8, 9] (by decide) (by decide)⟩

/-- C2 counterexample: the payload of a frame with declared length 3
arrives split across two chunks; the reader does not wait for all 3 bytes
but yields a 1-byte packet from the first chunk, although the stream is
not closed (chunk `[2, 3]` is still pending). -/
theorem c2_partial_read_counterexample :
    recvFrame [[0, 3], [1], [2, 3]] = RecvResult.ok [1] [[2, 3]] ∧
      be16 0 3 = 3 ∧ ([1] : List Byte).length ≠ 3 := by
  decide

/-- C2 (amended): decode issues a single `read` for the 2-byte prefix and
a single `read` of up to `length` bytes for the payload; it yields
whatever that one read returns — `min length c.length` bytes when the
head chunk is `c` — rather than blocking for the full payload, and it
reports a disconnect exactly when a read returns 0 bytes (closed
stream). -/
theorem c2_single_read_decode :
    (∀ (b0 b1 : Byte) (c : List Byte) (rest : List (List Byte)),
        0 < be16 b0 b1 → c ≠ [] →
        recvFrame ([b0, b1] :: c :: rest) =
          RecvResult.ok (c.take (be16 b0 b1))
            (if c.drop (be16 b0 b1) = [] then rest
             else c.drop (be16 b0 b1) :: rest)) ∧
      recvFrame [] = RecvResult.disconnected [] := by
  constructor
  · intro b0 b1 c rest hlen hc
    have hcne : c.isEmpty = false := by
      cases c with
      | nil => exact absurd rfl hc
      | cons a t => rfl
    have htake : ¬ (c.take (be16 b0 b1)).length = 0 := by
      cases c with
      | nil => exact absurd rfl hc
      | cons a t =>
        simp only [List.length_take, List.length_cons]
        omega
    simp [recvFrame, readChunk, htake, List.isEmpty_iff]
    exact ⟨by omega, hc⟩
  · decide

/-- C2 witness: a frame whose 3-byte payload is available in one chunk is
decoded whole. -/
theorem c2_single_read_decode_witness :
    0 < be16 0 3 ∧ ([4, 5, 6] : List Byte) ≠ [] ∧
      recvFrame [[0, 3], [4, 5, 6]] = RecvResult.ok [4, 5, 6] [] := by
  refine ⟨by decide, by decide, ?_⟩
  have h := c2_single_read_decode.1 0 3 [4, 5, 6] [] (by decide) (by decide)
  simpa using h

/-- C3 counterexample: a zero-length packet encrypted and framed by the
sender is decoded by the receiver as a disconnect, not as an empty
packet. -/
theorem c3_zero_length_counterexample :
    recvFrame [encodeFrame [] XOR_KEY] = RecvResult.disconnected [] ∧
      recvFrame [encodeFrame [] XOR_KEY] ≠ RecvResult.ok [] [] := by
  decide

/-- C3 (amended): a zero-length packet is encrypted (trivially) and framed
correctly by the sender as the frame `[0, 0]`, but the receiver treats the
zero-byte payload read (which returns 0 bytes even on an open stream) as
a peer disconnect and terminates the session instead of yielding an empty
packet — even when further data is already pending on the stream. -/
theorem c3_zero_length_disconnects :
    (∀ k : Byte, xor_crypt [] k = [] ∧ encodeFrame [] k = [0, 0]) ∧
      recvFrame [[0, 0]] = RecvResult.disconnected [] ∧
      (∀ (c : List Byte) (r : List (List Byte)), c ≠ [] →
        recvFrame ([0, 0] :: c :: r) = RecvResult.disconnected (c :: r)) := by
  refine ⟨fun k => ⟨rfl, rfl⟩, by decide, ?_⟩
  intro c r hc
  have hcne : c.isEmpty = false := by
    cases c with
    | nil => exact absurd rfl hc
    | cons a t => rfl
  simp [recvFrame, readChunk, be16, hcne]

/-- C3 witness: with the pending chunk `[9]` on the stream, the
zero-length frame is still reported as a disconnect. -/
theorem c3_zero_length_disconnects_witness :
    ([9] : List Byte) ≠ [] ∧
      recvFrame [[0, 0], [9]] = RecvResult.disconnected [[9]] :=
  ⟨by decide, c3_zero_length_disconnects.2.2 [9] [] (by decide)⟩

/-- C6: for every packet `p` with `len(p) ≤ 65535`, the send path emits a
frame of `2 + len(p)` bytes whose first 2 bytes are a big-endian prefix
decoding to exactly `len(p)` and whose remainder is the `len(p)`-byte
ciphertext; there is no error path in the encode itself. -/
theorem c6_encode_structure (p : List Byte) (k : Byte)
    (h : p.length ≤ 65535) :
    (encodeFrame p k).length = 2 + p.length ∧
      (encodeFrame p k).take 2 = toBE16 p.length ∧
      be16 ((encodeFrame p k).getD 0 0) ((encodeFrame p k).getD 1 0) =
        p.length ∧
      (encodeFrame p k).drop 2 = xor_crypt p k ∧
      (xor_crypt p k).length = p.length := by
  have hx : (xor_crypt p k).length = p.length := xor_crypt_length p k
  have hshape : encodeFrame p k =
      (p.length % 65536 / 256) :: (p.length % 256) :: xor_crypt p k := by
    simp [encodeFrame, toBE16]
  refine ⟨?_, ?_, ?_, ?_, hx⟩
  · rw [hshape]; simp [hx]; omega
  · rw [hshape]; simp [toBE16]
  · rw [hshape]; simp only [List.getD_cons_zero, List.getD_cons_succ, be16]
    omega
  · rw [hshape]; rfl

/-- C6 witness: the frame for the concrete packet `[1, 2]` with key 0x42
has the stated structure. -/
theorem c6_encode_structure_witness :
    ([1, 2] : List Byte).length ≤ 65535 ∧
      (encodeFrame [1, 2] XOR_KEY).length = 2 + ([1, 2] : List Byte).length ∧
      be16 ((encodeFrame [1, 2] XOR_KEY).getD 0 0)
        ((encodeFrame [1, 2] XOR_KEY).getD 1 0) = ([1, 2] : List Byte).length :=
  ⟨by decide, (c6_encode_structure [1, 2] XOR_KEY (by decide)).1,
    (c6_encode_structure [1, 2] XOR_KEY (by decide)).2.2.1⟩

/-- C10: the payload `read` uses the declared wire length directly as its
byte count with no bounds check against the 2048-byte stack buffer: any
single read deposits at most `declared` bytes, so every frame with
declared length at most `BUFFER_SIZE` stays within the buffer, but a
frame with declared length 2049 is accepted (not rejected by any error
branch) and deposits 2049 bytes, exceeding `BUFFER_SIZE`. -/
theorem c10_payload_read_bounds :
    (∀ (declared : Nat) (s : List (List Byte)), declared ≤ BUFFER_SIZE →
        ((readChunk declared s).1).length ≤ BUFFER_SIZE) ∧
      recvFrame [toBE16 2049 ++ List.replicate 2049 5] =
        RecvResult.ok (List.replicate 2049 5) [] ∧
      BUFFER_SIZE < (List.replicate 2049 (5 : Byte)).length := by
  refine ⟨?_, ?_, by rw [List.length_replicate]; decide⟩
  · intro declared s hd
    cases s with
    | nil => simp [readChunk, BUFFER_SIZE]
    | cons c rest =>
      simp only [readChunk, List.length_take]
      omega
  · have hsh : (toBE16 2049 ++ List.replicate 2049 (5 : Byte)) =
        8 :: 1 :: List.replicate 2049 5 := rfl
    rw [hsh]
    refine recvFrame_one_chunk 8 1 _ ?_ ?_
    · rw [List.length_replicate]; decide
    · intro hnil
      have : (List.replicate 2049 (5 : Byte)).length = 0 := by rw [hnil]; rfl
      rw [List.length_replicate] at this
      omega

/-- C10 witness: a concrete in-bounds read under the precondition. -/
theorem c10_payload_read_bounds_witness :
    4 ≤ BUFFER_SIZE ∧ ((readChunk 4 [[1, 2, 3]]).1).length ≤ BUFFER_SIZE :=
  ⟨by decide, c10_payload_read_bounds.1 4 [[1, 2, 3]] (by decide)⟩

theorem stepTun_read_fail (st : LoopState) (rest : List (Option (List Byte)))
    (h : st.tunIn = none :: rest) :
    stepTun st = ({ st with tunIn := rest }, false) := by
  simp [stepTun, popTun, h]

theorem stepTun_read_exhausted (st : LoopState) (h : st.tunIn = []) :
    stepTun st = ({ st with tunIn := [] }, false) := by
  simp [stepTun, popTun, h]

theorem stepTun_prefix_write_fail (st : LoopState) (p : List Byte)
    (rest : List (Option (List Byte))) (w : List Bool)
    (h : st.tunIn = some p :: rest) (hw : st.sockWriteOk = false :: w) :
    stepTun st = ({ st with tunIn := rest, sockWriteOk := w }, false) := by
  simp [stepTun, popTun, popWrite, h, hw]

theorem stepTun_payload_write_fail (st : LoopState) (p : List Byte)
    (rest : List (Option (List Byte))) (w : List Bool)
    (h : st.tunIn = some p :: rest) (hw : st.sockWriteOk = true :: false :: w) :
    stepTun st = ({ st with tunIn := rest, sockWriteOk := w,
                            sockOut := st.sockOut ++
                              toBE16 (p.take BUFFER_SIZE).length }, false) := by
  simp [stepTun, popTun, popWrite, h, hw]

theorem stepTun_ok (st : LoopState) (p : List Byte)
    (rest : List (Option (List Byte)))
    (h : st.tunIn = some p :: rest) (hw : st.sockWriteOk = []) :
    stepTun st = ({ st with tunIn := rest, sockWriteOk := [],
                            sockOut := st.sockOut ++
                              encodeFrame (p.take BUFFER_SIZE) XOR_KEY },
      true) := by
  simp [stepTun, popTun, popWrite, h, hw, encodeFrame, List.append_assoc]

theorem stepSock_disconnect (st : LoopState) (rest : List (List Byte))
    (h : recvFrame st.sockIn = RecvResult.disconnected rest) :
    stepSock st = ({ st with sockIn := rest }, false) := by
  simp [stepSock, h]

theorem stepSock_write_fail (st : LoopState) (pkt : List Byte)
    (rest : List (List Byte)) (w : List Bool)
    (h : recvFrame st.sockIn = RecvResult.ok pkt rest)
    (hw : st.tunWriteOk = false :: w) :
    stepSock st = ({ st with sockIn := rest, tunWriteOk := w }, false) := by
  simp [stepSock, popWrite, h, hw]

theorem stepSock_ok (st : LoopState) (pkt : List Byte)
    (rest : List (List Byte))
    (h : recvFrame st.sockIn = RecvResult.ok pkt rest)
    (hw : st.tunWriteOk = []) :
    stepSock st = ({ st with sockIn := rest, tunWriteOk := [],
                             tunOut := st.tunOut ++
                               [xor_crypt pkt XOR_KEY] }, true) := by
  simp [stepSock, popWrite, h, hw]

theorem stepIter_break_skips_sock (st : LoopState) (s : Bool)
    (h : (stepTun st).2 = false) :
    stepIter (Readiness.ready true s) st = ((stepTun st).1, false) := by
  simp [stepIter, h]

theorem runLoop_stop (r : Readiness) (post : List Readiness)
    (st st1 : LoopState) (h : stepIter r st = (st1, false)) :
    runLoop (r :: post) st = (st1, true) := by
  simp [runLoop, h]

/-- C5: every I/O failure during RUNNING — interface read failure,
transport prefix- or payload-write failure, a ShortRead peer disconnect,
or interface write failure — makes the event loop `break` at once (a
break in the TUN branch also skips the socket branch of the same
iteration); the rest of the schedule is then never consulted, so no
further packet is read from or written to either handle; and whenever a
session run completes, both the interface and the transport handle are
closed. -/
theorem c5_failure_terminates_session :
    (∀ (st : LoopState) (rest : List (Option (List Byte))),
        st.tunIn = none :: rest →
        stepTun st = ({ st with tunIn := rest }, false)) ∧
    (∀ (st : LoopState) (p : List Byte) (rest : List (Option (List Byte)))
        (w : List Bool),
        st.tunIn = some p :: rest → st.sockWriteOk = false :: w →
        stepTun st = ({ st with tunIn := rest, sockWriteOk := w }, false)) ∧
    (∀ (st : LoopState) (p : List Byte) (rest : List (Option (List Byte)))
        (w : List Bool),
        st.tunIn = some p :: rest → st.sockWriteOk = true :: false :: w →
        stepTun st = ({ st with tunIn := rest, sockWriteOk := w,
                                sockOut := st.sockOut ++
                                  toBE16 (p.take BUFFER_SIZE).length },
          false)) ∧
    (∀ (st : LoopState) (rest : List (List Byte)),
        recvFrame st.sockIn = RecvResult.disconnected rest →
        stepSock st = ({ st with sockIn := rest }, false)) ∧
    (∀ (st : LoopState) (pkt : List Byte) (rest : List (List Byte))
        (w : List Bool),
        recvFrame st.sockIn = RecvResult.ok pkt rest →
        st.tunWriteOk = false :: w →
        stepSock st = ({ st with sockIn := rest, tunWriteOk := w }, false)) ∧
    (∀ (st : LoopState) (s : Bool), (stepTun st).2 = false →
        stepIter (Readiness.ready true s) st = ((stepTun st).1, false)) ∧
    (∀ (r : Readiness) (post : List Readiness) (st st1 : LoopState),
        stepIter r st = (st1, false) → runLoop (r :: post) st = (st1, true)) ∧
    (∀ (sched : List Readiness) (st : LoopState) (res : MainResult),
        serverMain true true true sched st = some res →
        res.closedTun = true ∧ res.closedTransport = true) ∧
    (∀ (sched : List Readiness) (st : LoopState) (res : MainResult),
        clientMain true true true sched st = some res →
        res.closedTun = true ∧ res.closedTransport = true) := by
  refine ⟨stepTun_read_fail, stepTun_prefix_write_fail,
    stepTun_payload_write_fail, stepSock_disconnect, stepSock_write_fail,
    stepIter_break_skips_sock, runLoop_stop, ?_, ?_⟩
  · intro sched st res h
    simp only [serverMain, Bool.not_true, Bool.false_eq_true, if_false] at h
    by_cases hr : (runLoop sched st).2
    · simp [hr] at h
      simp [← h]
    · simp [hr] at h
  · intro sched st res h
    simp only [clientMain, Bool.not_true, Bool.false_eq_true, if_false] at h
    by_cases hr : (runLoop sched st).2
    · simp [hr] at h
      simp [← h]
    · simp [hr] at h

/-- C5 witness: a concrete session whose peer has closed the transport:
the disconnect stops the loop, the remaining schedule is ignored, and the
server run reports both handles closed with exit status 0. -/
theorem c5_failure_terminates_session_witness :
    recvFrame ([] : List (List Byte)) = RecvResult.disconnected [] ∧
      stepSock ⟨[], [], [], [], [], []⟩ = (⟨[], [], [], [], [], []⟩, false) :=
  ⟨by decide, c5_failure_terminates_session.2.2.2.1 ⟨[], [], [], [], [], []⟩ []
    (by decide)⟩

/-- C8: setup failures (missing argument, TUN unavailable, socket
bind/listen failure, accept failure, connect failure) make the process
exit with status 1; a terminating session — in particular one ended by a
clean peer disconnect — makes it close both handles and exit with
status 0. -/
theorem c8_exit_behavior :
    (∀ (sockOk acceptOk : Bool) (sched : List Readiness) (st : LoopState),
        serverMain false sockOk acceptOk sched st =
          some ⟨1, false, false⟩) ∧
    (∀ (acceptOk : Bool) (sched : List Readiness) (st : LoopState),
        serverMain true false acceptOk sched st = some ⟨1, true, false⟩) ∧
    (∀ (sched : List Readiness) (st : LoopState),
        serverMain true true false sched st = some ⟨1, true, false⟩) ∧
    (∀ (tunOk connectOk : Bool) (sched : List Readiness) (st : LoopState),
        clientMain false tunOk connectOk sched st = some ⟨1, false, false⟩) ∧
    (∀ (connectOk : Bool) (sched : List Readiness) (st : LoopState),
        clientMain true false connectOk sched st = some ⟨1, false, false⟩) ∧
    (∀ (sched : List Readiness) (st : LoopState),
        clientMain true true false sched st = some ⟨1, true, false⟩) ∧
    (∀ (sched : List Readiness) (st : LoopState),
        (runLoop sched st).2 = true →
        serverMain true true true sched st = some ⟨0, true, true⟩ ∧
          clientMain true true true sched st = some ⟨0, true, true⟩) ∧
    (∀ (sched : List Readiness) (st : LoopState) (rest : List (List Byte)),
        recvFrame st.sockIn = RecvResult.disconnected rest →
        (runLoop (Readiness.ready false true :: sched) st).2 = true) := by
  refine ⟨fun _ _ _ _ => rfl, fun _ _ _ => rfl, fun _ _ => rfl,
    fun _ _ _ _ => rfl, fun _ _ _ => rfl, fun _ _ => rfl, ?_, ?_⟩
  · intro sched st h
    constructor
    · simp [serverMain, h]
    · simp [clientMain, h]
  · intro sched st rest h
    have hs : stepSock st = ({ st with sockIn := rest }, false) :=
      stepSock_disconnect st rest h
    simp [runLoop, stepIter, hs]

/-- C8 witness: a peer disconnect on a concrete running session
terminates the loop. -/
theorem c8_exit_behavior_witness :
    recvFrame (([] : List (List Byte))) = RecvResult.disconnected [] ∧
      (runLoop [Readiness.ready false true] ⟨[], [], [], [], [], []⟩).2 =
        true :=
  ⟨by decide, c8_exit_behavior.2.2.2.2.2.2.2 [] ⟨[], [], [], [], [], []⟩ []
    (by decide)⟩

/-- C9: whenever the event loop exits — whatever the cause — both the
server and the client `main` close both handles and return exit status 0;
a non-zero status arises only when one of the setup steps failed before
the loop started. -/
theorem c9_loop_exit_status_zero :
    (∀ (sched : List Readiness) (st : LoopState) (res : MainResult),
        serverMain true true true sched st = some res →
        res.exitCode = 0 ∧ res.closedTun = true ∧
          res.closedTransport = true) ∧
    (∀ (sched : List Readiness) (st : LoopState) (res : MainResult),
        clientMain true true true sched st = some res →
        res.exitCode = 0 ∧ res.closedTun = true ∧
          res.closedTransport = true) ∧
    (∀ (tunOk sockOk acceptOk : Bool) (sched : List Readiness)
        (st : LoopState) (res : MainResult),
        serverMain tunOk sockOk acceptOk sched st = some res →
        res.exitCode ≠ 0 →
        tunOk = false ∨ sockOk = false ∨ acceptOk = false) ∧
    (∀ (argcOk tunOk connectOk : Bool) (sched : List Readiness)
        (st : LoopState) (res : MainResult),
        clientMain argcOk tunOk connectOk sched st = some res →
        res.exitCode ≠ 0 →
        argcOk = false ∨ tunOk = false ∨ connectOk = false) := by
  refine ⟨?_, ?_, ?_, ?_⟩
  · intro sched st res h
    by_cases hr : (runLoop sched st).2
    · simp [serverMain, hr] at h
      simp [← h]
    · simp [serverMain, hr] at h
  · intro sched st res h
    by_cases hr : (runLoop sched st).2
    · simp [clientMain, hr] at h
      simp [← h]
    · simp [clientMain, hr] at h
  · intro tunOk sockOk acceptOk sched st res h hne
    cases tunOk with
    | false => exact Or.inl rfl
    | true =>
      cases sockOk with
      | false => exact Or.inr (Or.inl rfl)
      | true =>
        cases acceptOk with
        | false => exact Or.inr (Or.inr rfl)
        | true =>
          by_cases hr : (runLoop sched st).2
          · simp [serverMain, hr] at h
            rw [← h] at hne
            simp at hne
          · simp [serverMain, hr] at h
  · intro argcOk tunOk connectOk sched st res h hne
    cases argcOk with
    | false => exact Or.inl rfl
    | true =>
      cases tunOk with
      | false => exact Or.inr (Or.inl rfl)
      | true =>
        cases connectOk with
        | false => exact Or.inr (Or.inr rfl)
        | true =>
          by_cases hr : (runLoop sched st).2
          · simp [clientMain, hr] at h
            rw [← h] at hne
            simp at hne
          · simp [clientMain, hr] at h

/-- C9 witness: a concrete session ended by a select failure exits with
status 0 and both handles closed. -/
theorem c9_loop_exit_status_zero_witness :
    (⟨0, true, true⟩ : MainResult).exitCode = 0 ∧
      (⟨0, true, true⟩ : MainResult).closedTun = true ∧
      (⟨0, true, true⟩ : MainResult).closedTransport = true :=
  c9_loop_exit_status_zero.1 [Readiness.selectFail] ⟨[], [], [], [], [], []⟩
    ⟨0, true, true⟩ (by decide)

theorem framesOf_append (a b : List (Option (List Byte))) :
    framesOf (a ++ b) = framesOf a ++ framesOf b := by
  simp [framesOf]

theorem framesOf_nil : framesOf [] = [] := rfl

theorem framesOf_none : framesOf [none] = [] := rfl

theorem framesOf_some (p : List Byte) :
    framesOf [some p] = encodeFrame (p.take BUFFER_SIZE) XOR_KEY := by
  simp [framesOf]

theorem recvPath_append {s s1 s2 : List (List Byte)}
    {ps1 ps2 : List (List Byte)} (h1 : RecvPath s ps1 s1)
    (h2 : RecvPath s1 ps2 s2) : RecvPath s (ps1 ++ ps2) s2 := by
  induction h1 with
  | nil s => simpa using h2
  | cons h hp ih => exact RecvPath.cons h (ih h2)

theorem okReach_refl (st : LoopState) : OkReach st st :=
  ⟨0, [], by simp, by simp [framesOf], RecvPath.nil _, by simp⟩

theorem reach_refl (st : LoopState) : Reach st st :=
  ⟨0, [], st.sockIn, by simp, by simp [framesOf], RecvPath.nil _,
    Or.inl rfl, by simp⟩

theorem okReach_comp {st st1 f : LoopState} (h1 : OkReach st st1)
    (h2 : Reach st1 f) : Reach st f := by
  obtain ⟨k1, ps1, ht1, hs1, hp1, ho1⟩ := h1
  obtain ⟨k2, ps2, s2, ht2, hs2, hp2, hd2, ho2⟩ := h2
  refine ⟨k1 + k2, ps1 ++ ps2, s2, ?_, ?_, ?_, hd2, ?_⟩
  · rw [ht2, ht1, List.drop_drop]
  · rw [hs2, hs1, ht1, List.take_add, framesOf_append, List.append_assoc]
  · exact recvPath_append hp1 hp2
  · rw [ho2, ho1, List.map_append, List.append_assoc]

theorem step_continue (r : Readiness) (st : LoopState)
    (hsw : st.sockWriteOk = []) (htw : st.tunWriteOk = [])
    (st1 : LoopState) (h : stepIter r st = (st1, true)) :
    st1.sockWriteOk = [] ∧ st1.tunWriteOk = [] ∧ OkReach st st1 := by
  cases r with
  | selectFail => simp [stepIter] at h
  | ready t s =>
    cases t with
    | false =>
      cases s with
      | false =>
        simp only [stepIter, Bool.false_eq_true, if_false, Prod.mk.injEq,
          and_true] at h
        subst h
        exact ⟨hsw, htw, okReach_refl st⟩
      | true =>
        simp only [stepIter, Bool.false_eq_true, if_false, if_true] at h
        cases hr : recvFrame st.sockIn with
        | disconnected rest =>
          rw [stepSock_disconnect st rest hr] at h
          simp at h
        | ok pkt rest =>
          rw [stepSock_ok st pkt rest hr htw] at h
          injection h with h1 h2
          subst h1
          refine ⟨by simpa using hsw, rfl, 0, [pkt], by simp,
            by simp [framesOf], ?_, by simp⟩
          exact RecvPath.cons hr (RecvPath.nil rest)
    | true =>
      cases htun : st.tunIn with
      | nil =>
        simp [stepIter, stepTun_read_exhausted st htun] at h
      | cons x rest =>
        cases x with
        | none =>
          simp [stepIter, stepTun_read_fail st rest htun] at h
        | some p =>
          have hT := stepTun_ok st p rest htun hsw
          simp only [stepIter, if_true] at h
          rw [hT] at h
          simp only [if_true] at h
          cases s with
          | false =>
            simp only [Bool.false_eq_true, if_false, Prod.mk.injEq,
              and_true] at h
            subst h
            refine ⟨rfl, by simpa using htw, 1, [], by simp [htun],
              by simp [htun, framesOf], RecvPath.nil _, by simp⟩
          | true =>
            simp only [if_true] at h
            cases hr : recvFrame st.sockIn with
            | disconnected rest2 =>
              rw [stepSock_disconnect _ rest2 (by simpa using hr)] at h
              simp at h
            | ok pkt rest2 =>
              rw [stepSock_ok _ pkt rest2 (by simpa using hr)
                (by simpa using htw)] at h
              injection h with h1 h2
              subst h1
              refine ⟨rfl, rfl, 1, [pkt], by simp [htun],
                by simp [htun, framesOf], ?_, by simp⟩
              exact RecvPath.cons hr (RecvPath.nil rest2)

theorem step_stop (r : Readiness) (st : LoopState)
    (hsw : st.sockWriteOk = []) (htw : st.tunWriteOk = [])
    (st1 : LoopState) (h : stepIter r st = (st1, false)) :
    Reach st st1 := by
  cases r with
  | selectFail =>
    simp only [stepIter, Prod.mk.injEq, and_true] at h
    subst h
    exact reach_refl st
  | ready t s =>
    cases t with
    | false =>
      cases s with
      | false => simp [stepIter] at h
      | true =>
        simp only [stepIter, Bool.false_eq_true, if_false, if_true] at h
        cases hr : recvFrame st.sockIn with
        | ok pkt rest =>
          rw [stepSock_ok st pkt rest hr htw] at h
          simp at h
        | disconnected rest =>
          rw [stepSock_disconnect st rest hr] at h
          injection h with h1 h2
          subst h1
          exact ⟨0, [], st.sockIn, by simp, by simp [framesOf],
            RecvPath.nil _, Or.inr ⟨rest, hr, rfl⟩, by simp⟩
    | true =>
      cases htun : st.tunIn with
      | nil =>
        simp only [stepIter, if_true] at h
        rw [stepTun_read_exhausted st htun] at h
        simp only [Bool.false_eq_true, if_false, Prod.mk.injEq,
          and_true] at h
        subst h
        exact ⟨0, [], st.sockIn, by simp [htun], by simp [framesOf],
          RecvPath.nil _, Or.inl rfl, by simp⟩
      | cons x rest =>
        cases x with
        | none =>
          simp only [stepIter, if_true] at h
          rw [stepTun_read_fail st rest htun] at h
          simp only [Bool.false_eq_true, if_false, Prod.mk.injEq,
            and_true] at h
          subst h
          exact ⟨1, [], st.sockIn, by simp [htun],
            by simp [htun, framesOf], RecvPath.nil _, Or.inl rfl, by simp⟩
        | some p =>
          have hT := stepTun_ok st p rest htun hsw
          simp only [stepIter, if_true] at h
          rw [hT] at h
          simp only [if_true] at h
          cases s with
          | false => simp at h
          | true =>
            simp only [if_true] at h
            cases hr : recvFrame st.sockIn with
            | ok pkt rest2 =>
              rw [stepSock_ok _ pkt rest2 (by simpa using hr)
                (by simpa using htw)] at h
              simp at h
            | disconnected rest2 =>
              rw [stepSock_disconnect _ rest2 (by simpa using hr)] at h
              injection h with h1 h2
              subst h1
              exact ⟨1, [], st.sockIn, by simp [htun],
                by simp [htun, framesOf], RecvPath.nil _,
                Or.inr ⟨rest2, hr, rfl⟩, by simp⟩

theorem runLoop_reach (sched : List Readiness) (st : LoopState)
    (hsw : st.sockWriteOk = []) (htw : st.tunWriteOk = []) :
    Reach st (runLoop sched st).1 := by
  induction sched generalizing st with
  | nil => exact reach_refl st
  | cons r rs ih =>
    cases hstep : stepIter r st with
    | mk st1 c =>
      cases c with
      | false =>
        simp only [runLoop, hstep, Bool.false_eq_true, if_false]
        exact step_stop r st hsw htw st1 hstep
      | true =>
        simp only [runLoop, hstep, if_true]
        obtain ⟨h1, h2, hok⟩ := step_continue r st hsw htw st1 hstep
        exact okReach_comp hok (ih st1 h1 h2)

/-- C7: under write success on both handles, every run of the loop
delivers per-direction in order: the bytes written to the transport are
exactly the concatenation, in order, of one encrypted frame per TUN
packet consumed (a prefix of the TUN reads), and the packets written to
the interface are exactly the decrypts, in order, of the frames decoded
from the transport stream (a possibly-truncated trailing decode that
reported disconnect contributes nothing). -/
theorem c7_per_direction_ordering (sched : List Readiness) (st : LoopState)
    (hsw : st.sockWriteOk = []) (htw : st.tunWriteOk = []) :
    ∃ (k : Nat) (ps s2 : List (List Byte)),
      (runLoop sched st).1.tunIn = st.tunIn.drop k ∧
      (runLoop sched st).1.sockOut =
        st.sockOut ++ framesOf (st.tunIn.take k) ∧
      RecvPath st.sockIn ps s2 ∧
      ((runLoop sched st).1.sockIn = s2 ∨
        ∃ r2, recvFrame s2 = RecvResult.disconnected r2 ∧
          (runLoop sched st).1.sockIn = r2) ∧
      (runLoop sched st).1.tunOut =
        st.tunOut ++ ps.map (fun p => xor_crypt p XOR_KEY) :=
  runLoop_reach sched st hsw htw

/-- C7 witness: a concrete session consuming one TUN packet. -/
theorem c7_per_direction_ordering_witness :
    ∃ (k : Nat) (ps s2 : List (List Byte)),
      (runLoop [Readiness.ready true false]
          ⟨[some [1, 2]], [], [], [], [], []⟩).1.tunIn =
        ([some [1, 2]] : List (Option (List Byte))).drop k ∧
      (runLoop [Readiness.ready true false]
          ⟨[some [1, 2]], [], [], [], [], []⟩).1.sockOut =
        [] ++ framesOf (([some [1, 2]] :
          List (Option (List Byte))).take k) ∧
      RecvPath [] ps s2 ∧
      ((runLoop [Readiness.ready true false]
          ⟨[some [1, 2]], [], [], [], [], []⟩).1.sockIn = s2 ∨
        ∃ r2, recvFrame s2 = RecvResult.disconnected r2 ∧
          (runLoop [Readiness.ready true false]
            ⟨[some [1, 2]], [], [], [], [], []⟩).1.sockIn = r2) ∧
      (runLoop [Readiness.ready true false]
          ⟨[some [1, 2]], [], [], [], [], []⟩).1.tunOut =
        [] ++ ps.map (fun p => xor_crypt p XOR_KEY) :=
  c7_per_direction_ordering [Readiness.ready true false]
    ⟨[some [1, 2]], [], [], [], [], []⟩ rfl rfl

end SimpleVpn
